import Mathlib

/-!
Verification of the ESPHome ST7305 RLCD display component's configuration
layer (`components/st7305_rlcd/display.py`).

The Python module declares a model enumeration (`MODELS`), an orientation
enumeration (`ORIENTATIONS`), a custom-panel validator
(`validate_custom_panel`), a configuration schema (`CONFIG_SCHEMA`, built
from required/optional keys with defaults and range checks, composed with
`validate_custom_panel` via `cv.All`), and a code-generation function
(`to_code`) that emits setter calls on the generated C++ driver object.

The shallow embedding below mirrors that pipeline: a `RawConfig` is the
user-supplied mapping (absent keys are `none`), the schema validates it
into a `Config` (defaults filled in, enum strings resolved, ranges
checked), and `to_code` produces the ordered list of emitted calls.
Validators are fallible and return `Except String`, mirroring
`cv.Invalid` / `KeyError` in the source.
-/

/-- The `ST7305Model` enum: values of the `MODELS` mapping in the source. -/
inductive ST7305Model where
  | WAVESHARE_400X300
  | OSPTEK_200X200
  | CUSTOM
deriving DecidableEq, Repr

/-- The `ST7305Orientation` enum: values of the `ORIENTATIONS` mapping. -/
inductive ST7305Orientation where
  | LANDSCAPE
  | PORTRAIT
deriving DecidableEq, Repr

/-- `cv.update_interval` results: the sentinel "never" or a fixed period in
milliseconds. -/
inductive UpdateIntervalValue where
  | never
  | milliseconds (n : Nat)
deriving DecidableEq, Repr

/-- The result of `cg.process_lambda(source, params, return_type)`. -/
structure ProcessedLambda where
  source : String
  params : List (String × String)
  return_type : String
deriving DecidableEq, Repr

/-- `cg.process_lambda`. -/
def process_lambda (source : String) (params : List (String × String))
    (return_type : String) : ProcessedLambda :=
  ⟨source, params, return_type⟩

/-- The user-supplied configuration mapping before schema validation.
Keys the user omitted are `none`. Pins are abstracted as numbers;
`update_interval` values arrive already parsed (the duration parser is
library code outside this component). -/
structure RawConfig where
  dc_pin : Option Nat
  reset_pin : Option Nat
  cs_pin : Option Nat
  model : Option String
  update_interval : Option UpdateIntervalValue
  width : Option Int
  height : Option Int
  orientation : Option String
  lambda_ : Option String
deriving DecidableEq, Repr

/-- The configuration after schema validation: required keys present,
defaults filled in, enum strings resolved to enum values. -/
structure Config where
  dc_pin : Nat
  reset_pin : Option Nat
  cs_pin : Nat
  model : ST7305Model
  update_interval : UpdateIntervalValue
  width : Option Int
  height : Option Int
  orientation : Option ST7305Orientation
  lambda_ : Option String
deriving DecidableEq, Repr

/-- The `MODELS` mapping keyed by the normalized model name. -/
def MODELS : List (String × ST7305Model) :=
  [("WAVESHARE_400X300", ST7305Model.WAVESHARE_400X300),
   ("OSPTEK_200X200", ST7305Model.OSPTEK_200X200),
   ("CUSTOM", ST7305Model.CUSTOM)]

/-- The `ORIENTATIONS` mapping keyed by the normalized orientation name. -/
def ORIENTATIONS : List (String × ST7305Orientation) :=
  [("LANDSCAPE", ST7305Orientation.LANDSCAPE),
   ("PORTRAIT", ST7305Orientation.PORTRAIT)]

/-- Upper-casing as `str.upper()` does it, written structurally over the
character list so evaluation reduces in the kernel. -/
def str_upper (s : String) : String :=
  String.mk (s.data.map Char.toUpper)

/-- The normalization `cv.one_of` applies to a candidate value before the
membership test: upper-casing when `upper=True`, and replacement of every
space by the character `space` when a `space` argument is given (the source
passes the single character "_"). -/
def one_of_normalize (upper : Bool) (space : Option Char) (s : String) : String :=
  let s1 := if upper then str_upper s else s
  match space with
  | some sp => String.mk (s1.data.map (fun ch => if ch = ' ' then sp else ch))
  | none => s1

/-- `cv.enum(mapping, upper, space)`: normalize the value, require it to be
a key of the mapping, and resolve it to the mapped enum value. -/
def cv_enum (mapping : List (String × α)) (upper : Bool) (space : Option Char)
    (value : String) : Except String α :=
  match mapping.lookup (one_of_normalize upper space value) with
  | some e => Except.ok e
  | none => Except.error ("Unknown value " ++ value)

/-- The model validator from the schema: `cv.enum(MODELS, upper=True, space="_")`. -/
def cv_enum_models (value : String) : Except String ST7305Model :=
  cv_enum MODELS true (some '_') value

/-- The orientation validator from the schema: `cv.enum(ORIENTATIONS, upper=True)`. -/
def cv_enum_orientations (value : String) : Except String ST7305Orientation :=
  cv_enum ORIENTATIONS true none value

/-- `cv.int_range(min, max)`: accept an integer lying in `[lo, hi]`. -/
def cv_int_range (lo hi : Int) (v : Int) : Except String Int :=
  if lo ≤ v ∧ v ≤ hi then Except.ok v
  else Except.error "int out of range"

/-- A `cv.Required` key: fail when the key is absent. -/
def required_key (name : String) : Option α → Except String α
  | some v => Except.ok v
  | none => Except.error ("required key not provided: " ++ name)

/-- A `cv.Optional` key with a validator: absent keys stay absent, present
values must pass the validator. -/
def cv_optional (f : α → Except String β) : Option α → Except String (Option β)
  | none => Except.ok none
  | some v => (f v).map some

/-- `validate_custom_panel` from the source: when the model is CUSTOM,
require `width`, `height` and `orientation`; otherwise (and on success)
return the configuration unchanged. -/
def validate_custom_panel (config : Config) : Except String Config :=
  if config.model = ST7305Model.CUSTOM then
    if config.width = none ∨ config.height = none then
      Except.error "Custom model requires width and height to be specified"
    else if config.orientation = none then
      Except.error "Custom model requires orientation (LANDSCAPE or PORTRAIT)"
    else Except.ok config
  else Except.ok config

/-- The key/validator part of `CONFIG_SCHEMA`: `dc_pin` required,
`reset_pin` optional, `model` optional with default "WAVESHARE_400X300"
(the default string passes through the enum validator like a user value),
`update_interval` optional with default "never", `width` and `height`
optional in `[1, 800]`, `orientation` optional, `cs_pin` required (from
`spi_device_schema(cs_pin_required=True)`), `lambda` optional (from
`FULL_DISPLAY_SCHEMA`). -/
def config_schema_fields (raw : RawConfig) : Except String Config :=
  match required_key "dc_pin" raw.dc_pin with
  | Except.error e => Except.error e
  | Except.ok dc_pin =>
  match required_key "cs_pin" raw.cs_pin with
  | Except.error e => Except.error e
  | Except.ok cs_pin =>
  match cv_enum_models (raw.model.getD "WAVESHARE_400X300") with
  | Except.error e => Except.error e
  | Except.ok model =>
  match cv_optional (cv_int_range 1 800) raw.width with
  | Except.error e => Except.error e
  | Except.ok width =>
  match cv_optional (cv_int_range 1 800) raw.height with
  | Except.error e => Except.error e
  | Except.ok height =>
  match cv_optional cv_enum_orientations raw.orientation with
  | Except.error e => Except.error e
  | Except.ok orientation =>
  Except.ok
    { dc_pin := dc_pin
      reset_pin := raw.reset_pin
      cs_pin := cs_pin
      model := model
      update_interval := raw.update_interval.getD UpdateIntervalValue.never
      width := width
      height := height
      orientation := orientation
      lambda_ := raw.lambda_ }

/-- `CONFIG_SCHEMA = cv.All(schema, validate_custom_panel)`. -/
def CONFIG_SCHEMA (raw : RawConfig) : Except String Config :=
  match config_schema_fields raw with
  | Except.error e => Except.error e
  | Except.ok config => validate_custom_panel config

/-- The calls `to_code` emits on the generated driver variable, in order. -/
inductive Call where
  | register_display
  | register_spi_device
  | set_dc_pin (p : Nat)
  | set_reset_pin (p : Nat)
  | set_model (m : ST7305Model)
  | set_width (w : Int)
  | set_height (h : Int)
  | set_orientation (o : ST7305Orientation)
  | set_writer (l : ProcessedLambda)
deriving DecidableEq, Repr

/-- The custom-panel block of `to_code`: when the model is CUSTOM it reads
`config[CONF_WIDTH]`, `config[CONF_HEIGHT]` and `config[CONF_ORIENTATION]`
by direct indexing (a missing key raises `KeyError`); otherwise it emits
nothing. -/
def custom_calls (config : Config) : Except String (List Call) :=
  if config.model = ST7305Model.CUSTOM then
    match config.width with
    | none => Except.error "KeyError: width"
    | some w =>
      match config.height with
      | none => Except.error "KeyError: height"
      | some h =>
        match config.orientation with
        | none => Except.error "KeyError: orientation"
        | some o =>
          Except.ok [Call.set_width w, Call.set_height h, Call.set_orientation o]
  else Except.ok []

/-- `to_code` from the source: register the display and SPI device, set the
data/command pin, set the reset pin when configured, set the model, emit
the custom-panel setters when the model is CUSTOM, and register the
processed lambda as writer when one is configured. -/
def to_code (config : Config) : Except String (List Call) :=
  match custom_calls config with
  | Except.error e => Except.error e
  | Except.ok custom =>
    Except.ok
      ([Call.register_display, Call.register_spi_device, Call.set_dc_pin config.dc_pin]
        ++ (match config.reset_pin with
            | some p => [Call.set_reset_pin p]
            | none => [])
        ++ [Call.set_model config.model]
        ++ custom
        ++ (match config.lambda_ with
            | some l => [Call.set_writer (process_lambda l [("DisplayRef", "it")] "void")]
            | none => []))

/-- A minimal raw configuration: only the required pins. -/
def rawMinimal : RawConfig :=
  { dc_pin := some 1, reset_pin := none, cs_pin := some 2, model := none,
    update_interval := none, width := none, height := none,
    orientation := none, lambda_ := none }

/-- The validated form of `rawMinimal`. -/
def cfgMinimal : Config :=
  { dc_pin := 1, reset_pin := none, cs_pin := 2,
    model := ST7305Model.WAVESHARE_400X300,
    update_interval := UpdateIntervalValue.never,
    width := none, height := none, orientation := none, lambda_ := none }

/- ### Inversion lemmas for the validators -/

lemma required_key_ok_iff (name : String) (o : Option α) (v : α) :
    required_key name o = Except.ok v ↔ o = some v := by
  cases o <;> simp [required_key]

lemma cv_int_range_ok_iff (lo hi v w : Int) :
    cv_int_range lo hi v = Except.ok w ↔ (lo ≤ v ∧ v ≤ hi ∧ w = v) := by
  by_cases h : lo ≤ v ∧ v ≤ hi
  · constructor
    · intro hok
      simp [cv_int_range, h] at hok
      exact ⟨h.1, h.2, hok.symm⟩
    · intro ⟨_, _, hw⟩
      simp [cv_int_range, h, hw]
  · constructor
    · intro hok
      simp [cv_int_range, h] at hok
    · intro ⟨h1, h2, _⟩
      exact absurd ⟨h1, h2⟩ h

lemma cv_optional_ok_iff (f : α → Except String β) (o : Option α) (r : Option β) :
    cv_optional f o = Except.ok r ↔
      ((o = none ∧ r = none) ∨ ∃ v w, o = some v ∧ r = some w ∧ f v = Except.ok w) := by
  cases o with
  | none => simp [cv_optional, eq_comm]
  | some v =>
    cases hf : f v with
    | error e => simp [cv_optional, hf, Except.map]
    | ok w => simp [cv_optional, hf, Except.map, eq_comm]

lemma validate_custom_panel_ok_elim (c r : Config)
    (h : validate_custom_panel c = Except.ok r) :
    r = c ∧ (c.model = ST7305Model.CUSTOM →
      c.width ≠ none ∧ c.height ≠ none ∧ c.orientation ≠ none) := by
  unfold validate_custom_panel at h
  by_cases hm : c.model = ST7305Model.CUSTOM
  · rw [if_pos hm] at h
    by_cases hw : c.width = none ∨ c.height = none
    · rw [if_pos hw] at h
      exact absurd h (by simp)
    · rw [if_neg hw] at h
      by_cases ho : c.orientation = none
      · rw [if_pos ho] at h
        exact absurd h (by simp)
      · rw [if_neg ho] at h
        refine ⟨(Except.ok.injEq _ _).mp h.symm, fun _ => ⟨?_, ?_, ho⟩⟩
        · exact fun hc => hw (Or.inl hc)
        · exact fun hc => hw (Or.inr hc)
  · rw [if_neg hm] at h
    exact ⟨(Except.ok.injEq _ _).mp h.symm, fun hc => absurd hc hm⟩

lemma validate_custom_panel_pass (c : Config)
    (h : c.model = ST7305Model.CUSTOM →
      c.width ≠ none ∧ c.height ≠ none ∧ c.orientation ≠ none) :
    validate_custom_panel c = Except.ok c := by
  unfold validate_custom_panel
  by_cases hm : c.model = ST7305Model.CUSTOM
  · obtain ⟨hw, hh, ho⟩ := h hm
    rw [if_pos hm, if_neg (by simp [hw, hh]), if_neg ho]
  · rw [if_neg hm]

lemma config_schema_fields_ok_spec (raw : RawConfig) (cfg : Config)
    (h : config_schema_fields raw = Except.ok cfg) :
    raw.dc_pin = some cfg.dc_pin ∧ raw.cs_pin = some cfg.cs_pin ∧
    cfg.reset_pin = raw.reset_pin ∧
    cv_enum_models (raw.model.getD "WAVESHARE_400X300") = Except.ok cfg.model ∧
    cfg.update_interval = raw.update_interval.getD UpdateIntervalValue.never ∧
    cfg.width = raw.width ∧ cfg.height = raw.height ∧
    (∀ v, raw.width = some v → 1 ≤ v ∧ v ≤ 800) ∧
    (∀ v, raw.height = some v → 1 ≤ v ∧ v ≤ 800) ∧
    (∀ s, raw.orientation = some s →
      ∃ o, cv_enum_orientations s = Except.ok o ∧ cfg.orientation = some o) ∧
    (raw.orientation = none → cfg.orientation = none) ∧
    cfg.lambda_ = raw.lambda_ := by
  unfold config_schema_fields at h
  split at h
  · exact Except.noConfusion h
  rename_i dc_pin hdc
  split at h
  · exact Except.noConfusion h
  rename_i cs_pin hcs
  split at h
  · exact Except.noConfusion h
  rename_i model hmodel
  split at h
  · exact Except.noConfusion h
  rename_i width hwidth
  split at h
  · exact Except.noConfusion h
  rename_i height hheight
  split at h
  · exact Except.noConfusion h
  rename_i orientation horient
  injection h with h
  subst h
  obtain ⟨hw_eq, hw_bnd⟩ : width = raw.width ∧
      (∀ v, raw.width = some v → 1 ≤ v ∧ v ≤ 800) := by
    rcases (cv_optional_ok_iff _ _ _).mp hwidth with ⟨hn, rfl⟩ | ⟨v, w, hv, rfl, hf⟩
    · refine ⟨hn.symm, ?_⟩
      intro u hu
      rw [hn] at hu
      exact Option.noConfusion hu
    · rcases (cv_int_range_ok_iff _ _ _ _).mp hf with ⟨h1, h2, rfl⟩
      refine ⟨hv.symm, ?_⟩
      intro u hu
      rw [hv] at hu
      injection hu with hu
      subst hu
      exact ⟨h1, h2⟩
  obtain ⟨hh_eq, hh_bnd⟩ : height = raw.height ∧
      (∀ v, raw.height = some v → 1 ≤ v ∧ v ≤ 800) := by
    rcases (cv_optional_ok_iff _ _ _).mp hheight with ⟨hn, rfl⟩ | ⟨v, w, hv, rfl, hf⟩
    · refine ⟨hn.symm, ?_⟩
      intro u hu
      rw [hn] at hu
      exact Option.noConfusion hu
    · rcases (cv_int_range_ok_iff _ _ _ _).mp hf with ⟨h1, h2, rfl⟩
      refine ⟨hv.symm, ?_⟩
      intro u hu
      rw [hv] at hu
      injection hu with hu
      subst hu
      exact ⟨h1, h2⟩
  obtain ⟨ho_some, ho_none⟩ : (∀ s, raw.orientation = some s →
        ∃ o, cv_enum_orientations s = Except.ok o ∧ orientation = some o) ∧
      (raw.orientation = none → orientation = none) := by
    rcases (cv_optional_ok_iff _ _ _).mp horient with ⟨hn, rfl⟩ | ⟨s, o, hs, rfl, hf⟩
    · refine ⟨?_, fun _ => rfl⟩
      intro t ht
      rw [hn] at ht
      exact Option.noConfusion ht
    · refine ⟨?_, ?_⟩
      · intro t ht
        rw [hs] at ht
        injection ht with ht
        subst ht
        exact ⟨o, hf, rfl⟩
      · intro hn
        rw [hs] at hn
        exact Option.noConfusion hn
  exact ⟨(required_key_ok_iff _ _ _).mp hdc, (required_key_ok_iff _ _ _).mp hcs, rfl,
    hmodel, rfl, hw_eq, hh_eq, hw_bnd, hh_bnd, ho_some, ho_none, rfl⟩

lemma CONFIG_SCHEMA_ok_elim (raw : RawConfig) (cfg : Config)
    (h : CONFIG_SCHEMA raw = Except.ok cfg) :
    config_schema_fields raw = Except.ok cfg ∧
    validate_custom_panel cfg = Except.ok cfg := by
  unfold CONFIG_SCHEMA at h
  split at h
  · exact Except.noConfusion h
  rename_i c hc
  obtain ⟨rfl, -⟩ := validate_custom_panel_ok_elim c cfg h
  exact ⟨hc, h⟩

lemma CONFIG_SCHEMA_error_of_not_ok (raw : RawConfig)
    (h : ∀ cfg, CONFIG_SCHEMA raw ≠ Except.ok cfg) :
    ∃ e, CONFIG_SCHEMA raw = Except.error e := by
  cases hc : CONFIG_SCHEMA raw with
  | error e => exact ⟨e, rfl⟩
  | ok cfg => exact absurd hc (h cfg)

lemma cv_enum_models_ok_iff (s : String) (m : ST7305Model) :
    cv_enum_models s = Except.ok m ↔
      (one_of_normalize true (some '_') s = "WAVESHARE_400X300" ∧
        m = ST7305Model.WAVESHARE_400X300) ∨
      (one_of_normalize true (some '_') s = "OSPTEK_200X200" ∧
        m = ST7305Model.OSPTEK_200X200) ∨
      (one_of_normalize true (some '_') s = "CUSTOM" ∧
        m = ST7305Model.CUSTOM) := by
  unfold cv_enum_models cv_enum MODELS
  by_cases h1 : one_of_normalize true (some '_') s = "WAVESHARE_400X300"
  · have e1 : (one_of_normalize true (some '_') s == "WAVESHARE_400X300") = true :=
      beq_iff_eq.mpr h1
    simp [List.lookup, e1, h1, eq_comm]
  have e1 : (one_of_normalize true (some '_') s == "WAVESHARE_400X300") = false :=
    beq_eq_false_iff_ne.mpr h1
  by_cases h2 : one_of_normalize true (some '_') s = "OSPTEK_200X200"
  · have e2 : (one_of_normalize true (some '_') s == "OSPTEK_200X200") = true :=
      beq_iff_eq.mpr h2
    simp [List.lookup, e1, e2, h1, h2, eq_comm]
  have e2 : (one_of_normalize true (some '_') s == "OSPTEK_200X200") = false :=
    beq_eq_false_iff_ne.mpr h2
  by_cases h3 : one_of_normalize true (some '_') s = "CUSTOM"
  · have e3 : (one_of_normalize true (some '_') s == "CUSTOM") = true :=
      beq_iff_eq.mpr h3
    simp [List.lookup, e1, e2, e3, h1, h2, h3, eq_comm]
  · have e3 : (one_of_normalize true (some '_') s == "CUSTOM") = false :=
      beq_eq_false_iff_ne.mpr h3
    simp [List.lookup, e1, e2, e3, h1, h2, h3]

lemma to_code_ok_spec (cfg : Config) (calls : List Call)
    (h : to_code cfg = Except.ok calls) :
    ∃ custom, custom_calls cfg = Except.ok custom ∧
      calls = [Call.register_display, Call.register_spi_device,
          Call.set_dc_pin cfg.dc_pin]
        ++ (match cfg.reset_pin with
            | some p => [Call.set_reset_pin p]
            | none => [])
        ++ [Call.set_model cfg.model]
        ++ custom
        ++ (match cfg.lambda_ with
            | some l => [Call.set_writer (process_lambda l [("DisplayRef", "it")] "void")]
            | none => []) := by
  unfold to_code at h
  split at h
  · exact Except.noConfusion h
  rename_i custom hc
  injection h with h
  exact ⟨custom, hc, h.symm⟩

lemma custom_calls_not_custom (cfg : Config) (h : cfg.model ≠ ST7305Model.CUSTOM) :
    custom_calls cfg = Except.ok [] := by
  unfold custom_calls
  rw [if_neg h]

lemma custom_calls_custom (cfg : Config) (hm : cfg.model = ST7305Model.CUSTOM)
    (w x : Int) (o : ST7305Orientation) (hw : cfg.width = some w)
    (hh : cfg.height = some x) (ho : cfg.orientation = some o) :
    custom_calls cfg =
      Except.ok [Call.set_width w, Call.set_height x, Call.set_orientation o] := by
  unfold custom_calls
  rw [if_pos hm, hw, hh, ho]

lemma custom_calls_ok_shape (cfg : Config) (custom : List Call)
    (h : custom_calls cfg = Except.ok custom) :
    custom = [] ∨ ∃ w x o, custom =
      [Call.set_width w, Call.set_height x, Call.set_orientation o] := by
  unfold custom_calls at h
  split at h
  · split at h
    · exact Except.noConfusion h
    split at h
    · exact Except.noConfusion h
    split at h
    · exact Except.noConfusion h
    injection h with h
    exact Or.inr ⟨_, _, _, h.symm⟩
  · injection h with h
    exact Or.inl h.symm

/- ### Concrete configurations used by witnesses and counterexamples -/

/-- A complete CUSTOM raw configuration. -/
def rawCustomFull : RawConfig :=
  { dc_pin := some 1, reset_pin := some 3, cs_pin := some 2,
    model := some "custom", update_interval := none, width := some 400,
    height := some 300, orientation := some "landscape",
    lambda_ := some "it.fill(COLOR_OFF);" }

/-- The validated form of `rawCustomFull`. -/
def cfgCustomFull : Config :=
  { dc_pin := 1, reset_pin := some 3, cs_pin := 2,
    model := ST7305Model.CUSTOM,
    update_interval := UpdateIntervalValue.never,
    width := some 400, height := some 300,
    orientation := some ST7305Orientation.LANDSCAPE,
    lambda_ := some "it.fill(COLOR_OFF);" }

example : CONFIG_SCHEMA rawCustomFull = Except.ok cfgCustomFull := rfl

/-- The call list `to_code` emits for `cfgCustomFull`. -/
def callsCustomFull : List Call :=
  [Call.register_display, Call.register_spi_device, Call.set_dc_pin 1,
   Call.set_reset_pin 3, Call.set_model ST7305Model.CUSTOM,
   Call.set_width 400, Call.set_height 300,
   Call.set_orientation ST7305Orientation.LANDSCAPE,
   Call.set_writer (process_lambda "it.fill(COLOR_OFF);"
     [("DisplayRef", "it")] "void")]

example : to_code cfgCustomFull = Except.ok callsCustomFull := rfl

/- ### Claim theorems -/

/-- C1: for every configuration whose model is CUSTOM, `validate_custom_panel`
raises `cv.Invalid` exactly when at least one of `width`, `height` or
`orientation` is absent, and passes (returning the configuration) when all
three are supplied. -/
theorem C1_custom_requires_dimensions (cfg : Config)
    (h : cfg.model = ST7305Model.CUSTOM) :
    ((∃ e, validate_custom_panel cfg = Except.error e) ↔
      (cfg.width = none ∨ cfg.height = none ∨ cfg.orientation = none)) ∧
    (cfg.width ≠ none → cfg.height ≠ none → cfg.orientation ≠ none →
      validate_custom_panel cfg = Except.ok cfg) := by
  constructor
  · constructor
    · intro ⟨e, he⟩
      by_contra hc
      push_neg at hc
      obtain ⟨hw, hh, ho⟩ := hc
      rw [validate_custom_panel_pass cfg (fun _ => ⟨hw, hh, ho⟩)] at he
      exact Except.noConfusion he
    · intro hc
      unfold validate_custom_panel
      rw [if_pos h]
      rcases hc with hw | hh | ho
      · rw [if_pos (Or.inl hw)]
        exact ⟨_, rfl⟩
      · rw [if_pos (Or.inr hh)]
        exact ⟨_, rfl⟩
      · by_cases hwh : cfg.width = none ∨ cfg.height = none
        · rw [if_pos hwh]
          exact ⟨_, rfl⟩
        · rw [if_neg hwh, if_pos ho]
          exact ⟨_, rfl⟩
  · intro hw hh ho
    exact validate_custom_panel_pass cfg (fun _ => ⟨hw, hh, ho⟩)

/-- Witness for C1 at concrete inputs: a complete CUSTOM configuration
passes, and the same configuration with `width` removed fails. -/
theorem C1_custom_requires_dimensions_witness :
    validate_custom_panel cfgCustomFull = Except.ok cfgCustomFull ∧
    (∃ e, validate_custom_panel { cfgCustomFull with width := none } =
      Except.error e) :=
  ⟨(C1_custom_requires_dimensions cfgCustomFull rfl).2
      (by decide) (by decide) (by decide),
   ((C1_custom_requires_dimensions { cfgCustomFull with width := none } rfl).1).mpr
      (Or.inl rfl)⟩

/-- C2: every configuration accepted by `CONFIG_SCHEMA` passes `to_code`,
which emits `set_width`, `set_height` and `set_orientation` (with the
configured values) exactly when the model is CUSTOM, and none of them
otherwise. -/
theorem C2_custom_setters_iff (raw : RawConfig) (cfg : Config)
    (h : CONFIG_SCHEMA raw = Except.ok cfg) :
    ∃ calls, to_code cfg = Except.ok calls ∧
      (cfg.model ≠ ST7305Model.CUSTOM →
        (∀ w, Call.set_width w ∉ calls) ∧ (∀ x, Call.set_height x ∉ calls) ∧
        (∀ o, Call.set_orientation o ∉ calls)) ∧
      (cfg.model = ST7305Model.CUSTOM →
        ∃ w x o, cfg.width = some w ∧ cfg.height = some x ∧
          cfg.orientation = some o ∧ Call.set_width w ∈ calls ∧
          Call.set_height x ∈ calls ∧ Call.set_orientation o ∈ calls) := by
  obtain ⟨hf, hv⟩ := CONFIG_SCHEMA_ok_elim raw cfg h
  obtain ⟨-, hreq⟩ := validate_custom_panel_ok_elim cfg cfg hv
  by_cases hm : cfg.model = ST7305Model.CUSTOM
  · obtain ⟨hw, hh, ho⟩ := hreq hm
    cases hwv : cfg.width with
    | none => exact absurd hwv hw
    | some w =>
    cases hhv : cfg.height with
    | none => exact absurd hhv hh
    | some x =>
    cases hov : cfg.orientation with
    | none => exact absurd hov ho
    | some o =>
    have hcc := custom_calls_custom cfg hm w x o hwv hhv hov
    refine ⟨_, by unfold to_code; rw [hcc], ?_, ?_⟩
    · intro hne
      exact absurd hm hne
    · intro _
      refine ⟨w, x, o, rfl, rfl, rfl, ?_, ?_, ?_⟩ <;>
        cases cfg.reset_pin <;> cases cfg.lambda_ <;> simp
  · have hcc := custom_calls_not_custom cfg hm
    refine ⟨_, by unfold to_code; rw [hcc], ?_, ?_⟩
    · intro _
      refine ⟨?_, ?_, ?_⟩ <;> intro a <;>
        cases cfg.reset_pin <;> cases cfg.lambda_ <;> simp
    · intro hc
      exact absurd hc hm

/-- Witness for C2 at the complete CUSTOM configuration. -/
theorem C2_custom_setters_iff_witness :
    ∃ calls, to_code cfgCustomFull = Except.ok calls ∧
      (cfgCustomFull.model ≠ ST7305Model.CUSTOM →
        (∀ w, Call.set_width w ∉ calls) ∧ (∀ x, Call.set_height x ∉ calls) ∧
        (∀ o, Call.set_orientation o ∉ calls)) ∧
      (cfgCustomFull.model = ST7305Model.CUSTOM →
        ∃ w x o, cfgCustomFull.width = some w ∧ cfgCustomFull.height = some x ∧
          cfgCustomFull.orientation = some o ∧ Call.set_width w ∈ calls ∧
          Call.set_height x ∈ calls ∧ Call.set_orientation o ∈ calls) :=
  C2_custom_setters_iff rawCustomFull cfgCustomFull rfl

/-- C8: `to_code` emits a `set_writer` call if and only if a lambda is
configured, and the emitted writer is the processed lambda taking the
display surface as its single argument and returning void. -/
theorem C8_writer_registration (cfg : Config) (calls : List Call)
    (h : to_code cfg = Except.ok calls) :
    ((∃ l, Call.set_writer l ∈ calls) ↔ cfg.lambda_ ≠ none) ∧
    (∀ src, cfg.lambda_ = some src →
      Call.set_writer (process_lambda src [("DisplayRef", "it")] "void") ∈ calls) := by
  obtain ⟨custom, hcc, rfl⟩ := to_code_ok_spec cfg calls h
  rcases custom_calls_ok_shape cfg custom hcc with rfl | ⟨w, x, o, rfl⟩ <;>
    cases cfg.reset_pin <;> cases hl : cfg.lambda_ <;>
    simp [process_lambda]

/-- Witness for C8 at the complete CUSTOM configuration, whose emitted call
list is concrete. -/
theorem C8_writer_registration_witness :
    ((∃ l, Call.set_writer l ∈ callsCustomFull) ↔ cfgCustomFull.lambda_ ≠ none) ∧
    (∀ src, cfgCustomFull.lambda_ = some src →
      Call.set_writer (process_lambda src [("DisplayRef", "it")] "void") ∈
        callsCustomFull) :=
  C8_writer_registration cfgCustomFull callsCustomFull rfl

/-- C6: a configuration that omits `update_interval` validates with the
resolved interval equal to the sentinel "never". -/
theorem C6_update_interval_default (raw : RawConfig) (cfg : Config)
    (h : raw.update_interval = none) (hok : CONFIG_SCHEMA raw = Except.ok cfg) :
    cfg.update_interval = UpdateIntervalValue.never := by
  obtain ⟨hf, -⟩ := CONFIG_SCHEMA_ok_elim raw cfg hok
  have spec := config_schema_fields_ok_spec raw cfg hf
  rw [spec.2.2.2.2.1, h]
  rfl

/-- Witness for C6: the minimal configuration omits `update_interval` and
resolves it to "never". -/
theorem C6_update_interval_default_witness :
    cfgMinimal.update_interval = UpdateIntervalValue.never :=
  C6_update_interval_default rawMinimal cfgMinimal rfl rfl

/-- A non-CUSTOM raw configuration that nevertheless supplies `width`,
`height` and `orientation`. -/
def rawNonCustomDims : RawConfig :=
  { dc_pin := some 1, reset_pin := none, cs_pin := some 2, model := none,
    update_interval := none, width := some 100, height := some 80,
    orientation := some "portrait", lambda_ := none }

/-- The validated form of `rawNonCustomDims`. -/
def cfgNonCustomDims : Config :=
  { dc_pin := 1, reset_pin := none, cs_pin := 2,
    model := ST7305Model.WAVESHARE_400X300,
    update_interval := UpdateIntervalValue.never,
    width := some 100, height := some 80,
    orientation := some ST7305Orientation.PORTRAIT, lambda_ := none }

/-- C3 counterexample: a configuration with the non-CUSTOM default model
that supplies `width`, `height` and `orientation` is accepted by
`CONFIG_SCHEMA`, not rejected. -/
theorem C3_counterexample :
    rawNonCustomDims.width = some 100 ∧ rawNonCustomDims.height = some 80 ∧
    rawNonCustomDims.orientation = some "portrait" ∧
    ∃ cfg, CONFIG_SCHEMA rawNonCustomDims = Except.ok cfg ∧
      cfg.model = ST7305Model.WAVESHARE_400X300 :=
  ⟨rfl, rfl, rfl, cfgNonCustomDims, rfl, rfl⟩

/-- C3 amended: validation accepts a non-CUSTOM configuration that supplies
width, height or orientation (each value still validated on its own);
the supplied values are carried through unchanged and `to_code` ignores
them, emitting no `set_width`, `set_height` or `set_orientation` call. -/
theorem C3_non_custom_dims_ignored (raw : RawConfig) (cfg : Config)
    (h : CONFIG_SCHEMA raw = Except.ok cfg)
    (hm : cfg.model ≠ ST7305Model.CUSTOM) :
    cfg.width = raw.width ∧ cfg.height = raw.height ∧
    ∃ calls, to_code cfg = Except.ok calls ∧
      (∀ w, Call.set_width w ∉ calls) ∧ (∀ x, Call.set_height x ∉ calls) ∧
      (∀ o, Call.set_orientation o ∉ calls) := by
  obtain ⟨hf, -⟩ := CONFIG_SCHEMA_ok_elim raw cfg h
  have spec := config_schema_fields_ok_spec raw cfg hf
  have hcc := custom_calls_not_custom cfg hm
  refine ⟨spec.2.2.2.2.2.1, spec.2.2.2.2.2.2.1, ?_⟩
  refine ⟨_, by unfold to_code; rw [hcc], ?_, ?_, ?_⟩ <;> intro a <;>
    cases cfg.reset_pin <;> cases cfg.lambda_ <;> simp

/-- Witness for the amended C3 at the counterexample configuration. -/
theorem C3_non_custom_dims_ignored_witness :
    cfgNonCustomDims.width = rawNonCustomDims.width ∧
    cfgNonCustomDims.height = rawNonCustomDims.height ∧
    ∃ calls, to_code cfgNonCustomDims = Except.ok calls ∧
      (∀ w, Call.set_width w ∉ calls) ∧ (∀ x, Call.set_height x ∉ calls) ∧
      (∀ o, Call.set_orientation o ∉ calls) :=
  C3_non_custom_dims_ignored rawNonCustomDims cfgNonCustomDims rfl (by decide)

/-- A raw configuration whose `width` lies outside `[1, 800]`. -/
def rawWidthTooBig : RawConfig :=
  { dc_pin := some 1, reset_pin := none, cs_pin := some 2, model := none,
    update_interval := none, width := some 900, height := none,
    orientation := none, lambda_ := none }

/-- C4: the dimension validator accepts an integer exactly when it lies in
`[1, 800]`, and a configuration supplying an out-of-range `width` or
`height` is rejected by `CONFIG_SCHEMA` with a configuration error. -/
theorem C4_dimension_range (raw : RawConfig) (v : Int) :
    ((∃ r, cv_int_range 1 800 v = Except.ok r) ↔ (1 ≤ v ∧ v ≤ 800)) ∧
    ((raw.width = some v ∨ raw.height = some v) → ¬(1 ≤ v ∧ v ≤ 800) →
      ∃ e, CONFIG_SCHEMA raw = Except.error e) := by
  constructor
  · constructor
    · intro ⟨r, hr⟩
      obtain ⟨h1, h2, -⟩ := (cv_int_range_ok_iff _ _ _ _).mp hr
      exact ⟨h1, h2⟩
    · intro ⟨h1, h2⟩
      exact ⟨v, (cv_int_range_ok_iff _ _ _ _).mpr ⟨h1, h2, rfl⟩⟩
  · intro hmem hrange
    apply CONFIG_SCHEMA_error_of_not_ok
    intro cfg hok
    obtain ⟨hf, -⟩ := CONFIG_SCHEMA_ok_elim raw cfg hok
    have spec := config_schema_fields_ok_spec raw cfg hf
    rcases hmem with hw | hh
    · exact hrange (spec.2.2.2.2.2.2.2.1 v hw)
    · exact hrange (spec.2.2.2.2.2.2.2.2.1 v hh)

/-- Witness for C4: 400 is accepted by the range validator, and a
configuration with `width: 900` is rejected. -/
theorem C4_dimension_range_witness :
    (∃ r, cv_int_range 1 800 400 = Except.ok r) ∧
    (∃ e, CONFIG_SCHEMA rawWidthTooBig = Except.error e) :=
  ⟨(C4_dimension_range rawWidthTooBig 400).1.mpr (by decide),
   (C4_dimension_range rawWidthTooBig 900).2 (Or.inl rfl) (by decide)⟩

/-- A raw configuration missing the required `dc_pin`. -/
def rawNoDc : RawConfig :=
  { dc_pin := none, reset_pin := none, cs_pin := some 2, model := none,
    update_interval := none, width := none, height := none,
    orientation := none, lambda_ := none }

/-- C5: `dc_pin` and `cs_pin` are required (their absence is rejected),
`reset_pin` is optional (the minimal configuration without one is
accepted), and `to_code` emits `set_reset_pin` exactly when a reset pin is
configured. -/
theorem C5_pin_requirements (raw : RawConfig) :
    (raw.dc_pin = none → ∃ e, CONFIG_SCHEMA raw = Except.error e) ∧
    (raw.cs_pin = none → ∃ e, CONFIG_SCHEMA raw = Except.error e) ∧
    (∀ cfg, CONFIG_SCHEMA raw = Except.ok cfg →
      cfg.reset_pin = raw.reset_pin ∧
      ∀ calls, to_code cfg = Except.ok calls →
        ((∃ p, Call.set_reset_pin p ∈ calls) ↔ raw.reset_pin ≠ none) ∧
        (∀ p, raw.reset_pin = some p → Call.set_reset_pin p ∈ calls)) ∧
    (∃ cfg, CONFIG_SCHEMA rawMinimal = Except.ok cfg ∧ cfg.reset_pin = none) := by
  refine ⟨?_, ?_, ?_, cfgMinimal, rfl, rfl⟩
  · intro hdc
    apply CONFIG_SCHEMA_error_of_not_ok
    intro cfg hok
    obtain ⟨hf, -⟩ := CONFIG_SCHEMA_ok_elim raw cfg hok
    have spec := config_schema_fields_ok_spec raw cfg hf
    rw [hdc] at spec
    exact Option.noConfusion spec.1
  · intro hcs
    apply CONFIG_SCHEMA_error_of_not_ok
    intro cfg hok
    obtain ⟨hf, -⟩ := CONFIG_SCHEMA_ok_elim raw cfg hok
    have spec := config_schema_fields_ok_spec raw cfg hf
    rw [hcs] at spec
    exact Option.noConfusion spec.2.1
  · intro cfg hok
    obtain ⟨hf, -⟩ := CONFIG_SCHEMA_ok_elim raw cfg hok
    have spec := config_schema_fields_ok_spec raw cfg hf
    refine ⟨spec.2.2.1, ?_⟩
    intro calls hcalls
    obtain ⟨custom, hcc, rfl⟩ := to_code_ok_spec cfg calls hcalls
    rw [← spec.2.2.1]
    rcases custom_calls_ok_shape cfg custom hcc with rfl | ⟨w, x, o, rfl⟩ <;>
      cases cfg.reset_pin <;> cases cfg.lambda_ <;> simp

/-- Witness for C5: missing `dc_pin` is rejected. -/
theorem C5_pin_requirements_witness :
    ∃ e, CONFIG_SCHEMA rawNoDc = Except.error e :=
  (C5_pin_requirements rawNoDc).1 rfl

/-- A raw configuration whose model names no known panel. -/
def rawBadModel : RawConfig :=
  { dc_pin := some 1, reset_pin := none, cs_pin := some 2,
    model := some "BOGUS", update_interval := none, width := none,
    height := none, orientation := none, lambda_ := none }

/-- C7: the model field is a closed enumeration: an accepted configuration's
model value normalizes (upper-case, spaces to underscores) to one of the
three known names, and any value normalizing to none of them is rejected. -/
theorem C7_model_closed_enum (raw : RawConfig) (s : String)
    (h : raw.model = some s) :
    ((∃ cfg, CONFIG_SCHEMA raw = Except.ok cfg) →
      one_of_normalize true (some '_') s = "WAVESHARE_400X300" ∨
      one_of_normalize true (some '_') s = "OSPTEK_200X200" ∨
      one_of_normalize true (some '_') s = "CUSTOM") ∧
    ((one_of_normalize true (some '_') s ≠ "WAVESHARE_400X300" ∧
      one_of_normalize true (some '_') s ≠ "OSPTEK_200X200" ∧
      one_of_normalize true (some '_') s ≠ "CUSTOM") →
      ∃ e, CONFIG_SCHEMA raw = Except.error e) := by
  constructor
  · intro ⟨cfg, hok⟩
    obtain ⟨hf, -⟩ := CONFIG_SCHEMA_ok_elim raw cfg hok
    have spec := config_schema_fields_ok_spec raw cfg hf
    have hm := spec.2.2.2.1
    rw [h] at hm
    rcases (cv_enum_models_ok_iff s cfg.model).mp hm with
      ⟨h1, -⟩ | ⟨h2, -⟩ | ⟨h3, -⟩
    · exact Or.inl h1
    · exact Or.inr (Or.inl h2)
    · exact Or.inr (Or.inr h3)
  · intro ⟨h1, h2, h3⟩
    apply CONFIG_SCHEMA_error_of_not_ok
    intro cfg hok
    obtain ⟨hf, -⟩ := CONFIG_SCHEMA_ok_elim raw cfg hok
    have spec := config_schema_fields_ok_spec raw cfg hf
    have hm := spec.2.2.2.1
    rw [h] at hm
    rcases (cv_enum_models_ok_iff s cfg.model).mp hm with
      ⟨hn, -⟩ | ⟨hn, -⟩ | ⟨hn, -⟩
    · exact h1 hn
    · exact h2 hn
    · exact h3 hn

/-- Witness for C7: the model name "BOGUS" is rejected. -/
theorem C7_model_closed_enum_witness :
    ∃ e, CONFIG_SCHEMA rawBadModel = Except.error e :=
  (C7_model_closed_enum rawBadModel "BOGUS" rfl).2 (by decide)

/-- C9: a configuration that omits `model` validates with the model resolved
to WAVESHARE_400X300; in particular the minimal configuration (only
`dc_pin` and `cs_pin`) is accepted, targets that panel, and `to_code`
emits no width, height or orientation setter for it. -/
theorem C9_default_model (raw : RawConfig) (cfg : Config)
    (hm : raw.model = none) (h : CONFIG_SCHEMA raw = Except.ok cfg) :
    cfg.model = ST7305Model.WAVESHARE_400X300 ∧
    (CONFIG_SCHEMA rawMinimal = Except.ok cfgMinimal ∧
      cfgMinimal.model = ST7305Model.WAVESHARE_400X300 ∧
      cfgMinimal.width = none ∧ cfgMinimal.height = none ∧
      cfgMinimal.orientation = none ∧
      to_code cfgMinimal = Except.ok
        [Call.register_display, Call.register_spi_device, Call.set_dc_pin 1,
         Call.set_model ST7305Model.WAVESHARE_400X300]) := by
  refine ⟨?_, rfl, rfl, rfl, rfl, rfl, rfl⟩
  obtain ⟨hf, -⟩ := CONFIG_SCHEMA_ok_elim raw cfg h
  have spec := config_schema_fields_ok_spec raw cfg hf
  have hmod := spec.2.2.2.1
  rw [hm] at hmod
  rcases (cv_enum_models_ok_iff _ _).mp hmod with
    ⟨-, hc⟩ | ⟨hn, -⟩ | ⟨hn, -⟩
  · exact hc
  · exact absurd hn (by decide)
  · exact absurd hn (by decide)

/-- Witness for C9 at the minimal configuration. -/
theorem C9_default_model_witness :
    cfgMinimal.model = ST7305Model.WAVESHARE_400X300 ∧
    (CONFIG_SCHEMA rawMinimal = Except.ok cfgMinimal ∧
      cfgMinimal.model = ST7305Model.WAVESHARE_400X300 ∧
      cfgMinimal.width = none ∧ cfgMinimal.height = none ∧
      cfgMinimal.orientation = none ∧
      to_code cfgMinimal = Except.ok
        [Call.register_display, Call.register_spi_device, Call.set_dc_pin 1,
         Call.set_model ST7305Model.WAVESHARE_400X300]) :=
  C9_default_model rawMinimal cfgMinimal rfl rfl

/-- C10: `validate_custom_panel` is the identity on every configuration it
accepts, and applying it twice equals applying it once. -/
theorem C10_validate_identity (cfg r : Config)
    (h : validate_custom_panel cfg = Except.ok r) :
    r = cfg ∧ validate_custom_panel r = Except.ok r := by
  obtain ⟨rfl, -⟩ := validate_custom_panel_ok_elim cfg r h
  exact ⟨rfl, h⟩

/-- Witness for C10 at a concrete accepted configuration. -/
theorem C10_validate_identity_witness :
    cfgCustomFull = cfgCustomFull ∧
    validate_custom_panel cfgCustomFull = Except.ok cfgCustomFull :=
  C10_validate_identity cfgCustomFull cfgCustomFull rfl

example : to_code cfgMinimal =
    Except.ok [Call.register_display, Call.register_spi_device,
      Call.set_dc_pin 1, Call.set_model ST7305Model.WAVESHARE_400X300] := rfl
